import Mathlib

/-!
Verification development for the divar-telegram-bot repository.

Shallow embedding of the two cores described by the design document:
the filter-flow engine (`store_filter_value` and the `flt:` branch of
`on_callback` in `app.py`) and the change-detection / notification engine
(`check_once`, `send_post` in `app.py`, plus the query translation in
`divar_client.search`).

Python dictionaries holding criteria are modelled as insertion-ordered
association lists (`Filters`); Python exceptions as `Except Unit`;
network and Telegram collaborators as explicit oracles.
-/

set_option autoImplicit false

namespace DivarBot

/-- A value stored in the criteria dict: Python stores either `int` or `str`
values through `store_filter_value`. -/
inductive FVal where
  | int : Int → FVal
  | str : String → FVal
deriving DecidableEq, Repr

/-- The criteria dict (`filters` in `app.py`): insertion-ordered key/value list,
mirroring a Python `dict` (assignment replaces in place, new keys append). -/
abbrev Filters := List (String × FVal)

/-- Python `filters[k] = v`: replace in place if the key exists, else append. -/
def setk (fs : Filters) (k : String) (v : FVal) : Filters :=
  if fs.any (fun p => p.1 == k) then
    fs.map (fun p => if p.1 == k then (k, v) else p)
  else fs ++ [(k, v)]

/-- Python `filters.get(k)`. -/
def lookupk (fs : Filters) (k : String) : Option FVal :=
  (fs.find? (fun p => p.1 == k)).map (fun p => p.2)

/-- Python `k in filters`. -/
def hasKey (fs : Filters) (k : String) : Bool :=
  fs.any (fun p => p.1 == k)

/-- The keys of the criteria dict, in insertion order. -/
def keys (fs : Filters) : List String :=
  fs.map (fun p => p.1)

/-- Kind of a flow step: `range` (min-max encoded value) or `enum`
(opaque token), the `"type"` field in `CATEGORY_FLOWS`. -/
inductive StepKind where
  | range
  | enum
deriving DecidableEq, Repr

/-- One step's option table: its kind and its ordered (label, encoded value)
choices. -/
structure StepOptions where
  kind : StepKind
  choices : List (String × String)
deriving DecidableEq, Repr

/-- One category's flow configuration, transcribing one entry of
`CATEGORY_FLOWS` in `app.py`. -/
structure CategoryFlow where
  title : String
  steps : List String
  labels : List (String × String)
  options : List (String × StepOptions)
  map_keys : List (String × (String × String))
deriving DecidableEq, Repr

/-- Lookup in a string-keyed association list (Python dict read access). -/
def lookupPair {α : Type} (l : List (String × α)) (k : String) : Option α :=
  (l.find? (fun p => p.1 == k)).map (fun p => p.2)

/-- The static category catalog `CATEGORY_FLOWS` of `app.py`, transcribed. -/
def CATEGORY_FLOWS : List (String × CategoryFlow) := [
  ("car",
   ⟨"🚗 خودرو",
     ["mileage", "year", "price"],
     [("mileage", "کارکرد رو انتخاب کن:"), ("year", "سال تولید رو انتخاب کن:"),
                ("price", "محدوده قیمت رو انتخاب کن:")],
     [
       ("mileage", ⟨.range,
         [("۰-۵۰هزار", "0-50000"), ("۵۰-۱۰۰هزار", "50000-100000"),
                     ("۱۰۰-۲۰۰هزار", "100000-200000"), ("۲۰۰-۳۵۰هزار", "200000-350000"),
                     ("۳۵۰-۵۰۰هزار", "350000-500000"), ("بالای ۵۰۰هزار", "500000-10000000")]⟩),
       ("year", ⟨.range,
         [("۱۳۸۵-۱۳۹۰", "2006-2011"), ("۱۳۹۰-۱۳۹۵", "2011-2016"),
                     ("۱۳۹۵-۱۴۰۰", "2016-2021"), ("۱۴۰۰-۱۴۰۳", "2021-2025")]⟩),
       ("price", ⟨.range,
         [("تا ۳۰۰م", "0-300000000"), ("۳۰۰-۷۰۰م", "300000000-700000000"),
                     ("۷۰۰م-۱.۵م", "700000000-1500000000"), ("بالای ۱.۵م", "1500000000-100000000000")]⟩)],
     [("mileage", ("mileage_min", "mileage_max")),
                  ("year", ("year_min", "year_max")),
                  ("price", ("price_min", "price_max"))]⟩),
  ("real_estate",
   ⟨"🏠 املاک",
     ["deal", "type", "meter", "rooms", "price"],
     [("deal", "نوع معامله رو انتخاب کن:"), ("type", "نوع ملک رو انتخاب کن:"),
                ("meter", "متراژ رو انتخاب کن:"), ("rooms", "تعداد اتاق:"), ("price", "محدوده قیمت:")],
     [
       ("deal", ⟨.enum, [("خرید 🏷️", "buy"), ("رهن/اجاره 🔄", "rent")]⟩),
       ("type", ⟨.enum,
         [("آپارتمان", "apartment"), ("خانه/ویلایی", "house"), ("زمین/کلنگی", "land")]⟩),
       ("meter", ⟨.range,
         [("تا ۶۰", "0-60"), ("۶۰-۹۰", "60-90"), ("۹۰-۱۲۰", "90-120"),
                     ("۱۲۰-۲۰۰", "120-200"), ("۲۰۰+", "200-10000")]⟩),
       ("rooms", ⟨.enum,
         [("۱", "1"), ("۲", "2"), ("۳", "3"), ("۴+", "4plus")]⟩),
       ("price", ⟨.range,
         [("تا ۵۰۰م", "0-500000000"), ("۵۰۰م-۲م", "500000000-2000000000"),
                     ("۲م-۵م", "2000000000-5000000000"), ("بیشتر", "5000000000-100000000000")]⟩)],
     [("meter", ("meter_min", "meter_max")), ("price", ("price_min", "price_max"))]⟩),
  ("jobs",
   ⟨"💼 استخدام",
     ["field", "seniority", "work_type", "salary"],
     [("field", "حوزه‌ی کاری رو انتخاب کن:"), ("seniority", "سطح سابقه:"),
                ("work_type", "نوع همکاری:"), ("salary", "حقوق ماهانه:")],
     [
       ("field", ⟨.enum,
         [("برنامه‌نویسی 👨‍💻", "dev"), ("طراحی 🎨", "design"),
                     ("فروش/مارکتینگ 📣", "sales"), ("مالی/اداری 🧾", "admin")]⟩),
       ("seniority", ⟨.enum,
         [("جونیور", "junior"), ("مید", "mid"), ("سینیور", "senior")]⟩),
       ("work_type", ⟨.enum,
         [("حضوری 🏢", "onsite"), ("دورکار 🏡", "remote"), ("هیبرید 🔁", "hybrid")]⟩),
       ("salary", ⟨.range,
         [("تا ۱۰م", "0-10000000"), ("۱۰-۲۰م", "10000000-20000000"),
                     ("۲۰-۴۰م", "20000000-40000000"), ("۴۰م+", "40000000-1000000000")]⟩)],
     [("salary", ("price_min", "price_max"))]⟩),
  ("mobile",
   ⟨"📱 موبایل",
     ["brand", "storage", "condition", "price"],
     [("brand", "برند گوشی:"), ("storage", "حجم حافظه:"),
                ("condition", "وضعیت:"), ("price", "محدوده قیمت:")],
     [
       ("brand", ⟨.enum,
         [("Apple 🍎", "apple"), ("Samsung 🌙", "samsung"), ("Xiaomi ⚡", "xiaomi"),
                     ("Huawei", "huawei"), ("Nokia", "nokia"), ("Other", "other")]⟩),
       ("storage", ⟨.enum,
         [("32GB", "32"), ("64GB", "64"), ("128GB", "128"), ("256GB+", "256plus")]⟩),
       ("condition", ⟨.enum,
         [("نو ✨", "new"), ("در حد نو ✅", "like_new"), ("کارکرده ♻️", "used")]⟩),
       ("price", ⟨.range,
         [("تا ۵م", "0-5000000"), ("۵-۱۰م", "5000000-10000000"),
                     ("۱۰-۲۰م", "10000000-20000000"), ("۲۰م+", "20000000-1000000000")]⟩)],
     [("price", ("price_min", "price_max"))]⟩),
  ("electronics",
   ⟨"🖥️ الکترونیک",
     ["sub", "condition", "price"],
     [("sub", "نوع دستگاه:"), ("condition", "وضعیت:"), ("price", "محدوده قیمت:")],
     [
       ("sub", ⟨.enum,
         [("لپ‌تاپ", "laptop"), ("PC", "pc"), ("مانیتور", "monitor"), ("کنسول بازی", "console")]⟩),
       ("condition", ⟨.enum,
         [("نو ✨", "new"), ("در حد نو ✅", "like_new"), ("کارکرده ♻️", "used")]⟩),
       ("price", ⟨.range,
         [("تا ۱۰م", "0-10000000"), ("۱۰-۳۰م", "10000000-30000000"),
                     ("۳۰-۶۰م", "30000000-60000000"), ("۶۰م+", "60000000-1000000000")]⟩)],
     [("price", ("price_min", "price_max"))]⟩),
  ("fashion",
   ⟨"👗 مد و پوشاک",
     ["sub", "size", "condition", "price"],
     [("sub", "دسته پوشاک:"), ("size", "سایز:"), ("condition", "وضعیت:"),
                ("price", "محدوده قیمت:")],
     [
       ("sub", ⟨.enum,
         [("زنانه", "women"), ("مردانه", "men"), ("بچه‌گانه", "kids"), ("اکسسوری", "acc")]⟩),
       ("size", ⟨.enum,
         [("S", "S"), ("M", "M"), ("L", "L"), ("XL", "XL")]⟩),
       ("condition", ⟨.enum,
         [("نو ✨", "new"), ("در حد نو ✅", "like_new"), ("کارکرده ♻️", "used")]⟩),
       ("price", ⟨.range,
         [("تا ۵۰۰هزار", "0-500000"), ("۵۰۰-۱.۵م", "500000-1500000"),
                     ("۱.۵-۳م", "1500000-3000000"), ("۳م+", "3000000-100000000")]⟩)],
     [("price", ("price_min", "price_max"))]⟩),
  ("home",
   ⟨"🛋️ خانه و آشپزخانه",
     ["sub", "condition", "price"],
     [("sub", "دسته:"), ("condition", "وضعیت:"), ("price", "محدوده قیمت:")],
     [
       ("sub", ⟨.enum,
         [("مبلمان", "furniture"), ("فرش/قالی", "rug"), ("یخچال/لباسشویی", "appliance")]⟩),
       ("condition", ⟨.enum,
         [("نو ✨", "new"), ("در حد نو ✅", "like_new"), ("کارکرده ♻️", "used")]⟩),
       ("price", ⟨.range,
         [("تا ۳م", "0-3000000"), ("۳-۸م", "3000000-8000000"),
                     ("۸-۱۵م", "8000000-15000000"), ("۱۵م+", "15000000-1000000000")]⟩)],
     [("price", ("price_min", "price_max"))]⟩),
  ("entertainment",
   ⟨"🎮 سرگرمی",
     ["sub", "price"],
     [("sub", "دسته سرگرمی:"), ("price", "محدوده قیمت:")],
     [
       ("sub", ⟨.enum,
         [("بازی ویدئویی", "videogame"), ("کتاب/مجله", "book"), ("ابزار موسیقی", "music")]⟩),
       ("price", ⟨.range,
         [("تا ۲م", "0-2000000"), ("۲-۵م", "2000000-5000000"),
                     ("۵-۱۵م", "5000000-15000000"), ("۱۵م+", "15000000-1000000000")]⟩)],
     [("price", ("price_min", "price_max"))]⟩),
  ("animals",
   ⟨"🐶 حیوانات",
     ["sub", "age", "price"],
     [("sub", "نوع حیوان:"), ("age", "سن:"), ("price", "محدوده قیمت:")],
     [
       ("sub", ⟨.enum,
         [("سگ", "dog"), ("گربه", "cat"), ("پرنده", "bird"), ("ماهی", "fish")]⟩),
       ("age", ⟨.range,
         [("تا ۳ ماه", "0-3"), ("۳-۱۲ ماه", "3-12"), ("۱-۳ سال", "12-36"), ("۳ سال+", "36-240")]⟩),
       ("price", ⟨.range,
         [("تا ۳م", "0-3000000"), ("۳-۱۰م", "3000000-10000000"),
                     ("۱۰-۳۰م", "10000000-30000000"), ("۳۰م+", "30000000-1000000000")]⟩)],
     [("age", ("age_min", "age_max")), ("price", ("price_min", "price_max"))]⟩)]

/-- `CATEGORY_FLOWS[category]` (the claims only exercise registered categories;
an unknown category raises `KeyError` in Python and yields `none` here). -/
def flowOf (category : String) : Option CategoryFlow :=
  lookupPair CATEGORY_FLOWS category

/-- `CATEGORY_FLOWS[category]["map_keys"].get(step)`. -/
def mapKeysOf (category step : String) : Option (String × String) :=
  match flowOf category with
  | some cfg => lookupPair cfg.map_keys step
  | none => none

/-- The declared encoded option values of a step (second components of its
`choices` list). -/
def optionValues (category step : String) : List String :=
  match flowOf category with
  | some cfg =>
    match lookupPair cfg.options step with
    | some so => so.choices.map (fun p => p.2)
    | none => []
  | none => []

/-- Numeric value of one ASCII digit (helper for `pyInt`). -/
def digitVal (c : Char) : Nat :=
  c.toNat - 48

/-- Fold a digit list into its numeric value (helper for `pyInt`). -/
def digitsToNat (l : List Char) : Nat :=
  l.foldl (fun acc c => acc * 10 + digitVal c) 0

/-- Model of Python `int(s)` on the strings this program feeds it: optional
surrounding ASCII whitespace, an optional sign, then a nonempty run of ASCII
digits; anything else raises `ValueError` (here: `none`). -/
def pyInt (s : String) : Option Int :=
  let cs := ((s.toList.dropWhile Char.isWhitespace).reverse.dropWhile Char.isWhitespace).reverse
  match cs with
  | [] => none
  | c :: rest =>
    if c = '-' then
      if !rest.isEmpty && rest.all Char.isDigit then some (-(digitsToNat rest : Int)) else none
    else if c = '+' then
      if !rest.isEmpty && rest.all Char.isDigit then some ((digitsToNat rest : Int)) else none
    else
      if cs.all Char.isDigit then some ((digitsToNat cs : Int)) else none

/-- Model of `value.split("-", 1)` when a dash occurs in `value`: the text
before the first dash and everything after it. -/
def splitDash1 (value : String) : String × String :=
  let cs := value.toList
  (String.mk (cs.takeWhile (fun c => c ≠ '-')),
   String.mk ((cs.dropWhile (fun c => c ≠ '-')).drop 1))

/-- `store_filter_value` of `app.py`, acting on the final dict state.  In the
source, when `int(lo)` succeeds but `int(hi)` raises, the intermediate integer
assignment to `kmin` is overwritten by the raw string in the `except` branch,
so the final dict always holds either two integers or two raw strings. -/
def store_filter_value (category : String) (filters : Filters) (step value : String) : Filters :=
  match mapKeysOf category step with
  | some (kmin, kmax) =>
    if value.toList.contains '-' then
      let lo := (splitDash1 value).1
      let hi := (splitDash1 value).2
      match pyInt lo, pyInt hi with
      | some a, some b => setk (setk filters kmin (.int a)) kmax (.int b)
      | _, _ => setk (setk filters kmin (.str lo)) kmax (.str hi)
    else
      setk (setk filters kmin (.str value)) kmax (.str value)
  | none => setk filters step (.str value)

/-- The per-user builder state relevant to the filter steps (the entry of
`builder_state` after category, city and district have been chosen). -/
structure BuilderState where
  category : String
  city : String
  district : Option String
  filters : Filters
  flow : List String
  flowIdx : Nat
deriving DecidableEq, Repr

/-- Outcome of one `flt:` callback: either the advanced session plus the next
step to prompt, or the terminal session whose filters are saved as the new
playlist's criteria. -/
inductive FltResult where
  | next (st : BuilderState) (nextStep : String)
  | finished (st : BuilderState)
deriving DecidableEq, Repr

/-- The session carried by a `FltResult`. -/
def FltResult.state : FltResult → BuilderState
  | .next st _ => st
  | .finished st => st

/-- The `flt:` branch of `on_callback` in `app.py`: store the answered value,
advance `flow_idx`, and either prompt the next step or finish (save the
playlist).  The source performs no validation of `step` or `value` here. -/
def on_callback_flt (st : BuilderState) (step value : String) : FltResult :=
  let fs := store_filter_value st.category st.filters step value
  let idx := st.flowIdx + 1
  let st₂ : BuilderState :=
    { category := st.category, city := st.city, district := st.district,
      filters := fs, flow := st.flow, flowIdx := idx }
  if h : idx < st.flow.length then .next st₂ (st.flow.get ⟨idx, h⟩)
  else .finished st₂

/-- The builder state right after a category, city and district have been
chosen (`cat:` / `city:` / `dist:` branches of `on_callback`): empty filters,
the category's step list as flow, index 0. -/
def initState (category city : String) (district : Option String) (cfg : CategoryFlow) : BuilderState :=
  { category := category, city := city, district := district,
    filters := [], flow := cfg.steps, flowIdx := 0 }

/-- Walk the flow by answering, at each point, the currently expected step
(`st.flow[st.flow_idx]`, the one the bot just prompted) with the given value.
Returns the terminal session when the answers exactly finish the flow. -/
def runFlow : BuilderState → List String → Option BuilderState
  | _, [] => none
  | st, v :: vs =>
    match st.flow.get? st.flowIdx with
    | none => none
    | some step =>
      match on_callback_flt st step v with
      | .next st₂ _ => runFlow st₂ vs
      | .finished st₂ => if vs.isEmpty then some st₂ else none

/-! ## Change-detection and notification engine (`check_once`, `send_post`) -/

/-- A provider item as built by `divar_client.search`.  Fields that only feed
the human-readable caption text (desc, price, city, district, phone,
created_at) are omitted: they never influence control flow or state. -/
structure Post where
  id : Option String
  title : Option String
  url : Option String
  images : List String
deriving DecidableEq, Repr

/-- A persisted subscription (`Playlist` row in `models.py`). -/
structure Playlist where
  plid : Nat
  userId : Nat
  category : String
  city : String
  district : Option String
  filters : Filters
  lastSeenIds : List String
deriving DecidableEq, Repr

/-- Python truthiness of an optional string (`None` and `""` are falsy). -/
def truthyStr : Option String → Bool
  | none => false
  | some s => s ≠ ""

/-- The Telegram side effects `send_post` performs, as outcome oracles:
whether `send_media_group` / `send_message` to a chat succeeds for a given
post, and what `fetch_details` returns (`none` models a raised exception,
which `send_post` swallows). -/
structure Bot where
  mediaGroupOk : Nat → Post → Bool
  messageOk : Nat → Post → Bool
  details : String → Option (List String)

/-- `send_post` of `app.py`, reduced to its exception behaviour.  The gallery
enrichment is attempted when there is a url, fewer than two images and an id;
its failure is swallowed.  With images, `send_media_group` (plus the optional
button message) is tried and any failure falls back to one plain
`send_message`; without images a plain `send_message` is sent directly.  A
failing plain `send_message` propagates (`.error`). -/
def send_post (bot : Bot) (chatId : Nat) (post : Post) : Except Unit Unit :=
  let images₀ := post.images.filter (fun u => u ≠ "")
  let images :=
    if truthyStr post.url && decide (images₀.length < 2) && truthyStr post.id then
      match bot.details (post.id.getD "") with
      | some gal => if gal.isEmpty then images₀ else gal
      | none => images₀
    else images₀
  let hasMarkup := truthyStr post.url
  if images.isEmpty then
    if bot.messageOk chatId post then .ok () else .error ()
  else
    if bot.mediaGroupOk chatId post && (!hasMarkup || bot.messageOk chatId post) then .ok ()
    else if bot.messageOk chatId post then .ok () else .error ()

/-- `x.get("id") and x["id"] not in seen`: the filter defining the new-item
delta in `check_once`. -/
def isNewPost (seen : List String) (x : Post) : Bool :=
  truthyStr x.id && !(seen.contains (x.id.getD ""))

/-- `x.get("id")` as used in the list comprehension building `ids`:
`some` exactly when truthy. -/
def truthyId (x : Post) : Option String :=
  match x.id with
  | some s => if s = "" then none else some s
  | none => none

/-- `dict.fromkeys(l)` key insertion: scan left to right, append unseen keys. -/
def pyFromKeysAux (acc : List String) : List String → List String
  | [] => acc
  | x :: xs =>
    if acc.contains x then pyFromKeysAux acc xs
    else pyFromKeysAux (acc ++ [x]) xs

/-- `list(dict.fromkeys(l))`: deduplication keeping the first occurrence. -/
def pyFromKeys (l : List String) : List String :=
  pyFromKeysAux [] l

/-- Dispatch each post in order.  Returns the successfully delivered prefix
and whether the whole list was delivered; a raised dispatch error stops the
loop (the exception propagates in the source). -/
def dispatchAll (dispatch : Post → Except Unit Unit) : List Post → List Post × Bool
  | [] => ([], true)
  | x :: xs =>
    match dispatch x with
    | .ok _ =>
      let r := dispatchAll dispatch xs
      (x :: r.1, r.2)
    | .error _ => ([], false)

/-- The body of `check_once`'s per-playlist loop iteration: search (a raised
provider error skips the playlist), compute the new-item delta, dispatch it,
and update `last_seen_ids`.  Result: the playlist as persisted afterwards, the
delivered posts in order, and `false` when a dispatch exception propagated
(in which case the seen update was never reached). -/
def processPlaylist (search : Playlist → Except Unit (List Post))
    (dispatch : Nat → Post → Except Unit Unit) (p : Playlist) :
    Playlist × List Post × Bool :=
  match search p with
  | .error _ => (p, [], true)
  | .ok posts =>
    let seen := p.lastSeenIds
    let newPosts := posts.filter (isNewPost seen)
    if newPosts.isEmpty then (p, [], true)
    else
      let r := dispatchAll (dispatch p.userId) newPosts
      if r.2 then
        let ids := newPosts.filterMap truthyId
        ({ p with lastSeenIds := (pyFromKeys (ids ++ seen)).take 40 }, r.1, true)
      else (p, r.1, false)

/-- `check_once` of `app.py` over a snapshot of the playlists: process each in
order; a propagating dispatch exception aborts the sweep, leaving the failing
playlist and all later ones untouched.  Returns the persisted playlists, the
dispatched (userId, post) pairs in order, and whether the sweep completed. -/
def check_once (search : Playlist → Except Unit (List Post))
    (dispatch : Nat → Post → Except Unit Unit) :
    List Playlist → List Playlist × List (Nat × Post) × Bool
  | [] => ([], [], true)
  | p :: ps =>
    let r := processPlaylist search dispatch p
    if r.2.2 then
      let rest := check_once search dispatch ps
      (r.1 :: rest.1, r.2.1.map (fun x => (p.userId, x)) ++ rest.2.1, rest.2.2)
    else
      (r.1 :: ps, r.2.1.map (fun x => (p.userId, x)), false)

/-- The persisted playlist after one sweep step, when no dispatch exception
occurs. -/
def sweepStep (search : Playlist → Except Unit (List Post))
    (dispatch : Nat → Post → Except Unit Unit) (p : Playlist) : Playlist :=
  (processPlaylist search dispatch p).1

/-- The (userId, post) pairs one playlist contributes to a sweep's dispatches. -/
def sweepSent (search : Playlist → Except Unit (List Post))
    (dispatch : Nat → Post → Except Unit Unit) (p : Playlist) : List (Nat × Post) :=
  (processPlaylist search dispatch p).2.1.map (fun x => (p.userId, x))

/-- Modelled from the spec's wording for claim comparison: "dedupe keeps the
first occurrence of each identifier and the newest-first order is preserved":
keep each head, delete its later occurrences. -/
def dedupeFirst : List String → List String
  | [] => []
  | x :: xs => x :: (dedupeFirst xs).filter (fun y => !(y == x))

/-! ## Provider query translation (`divar_client.search`) -/

/-- One entry of the payload's `query.search` list: a named bound clause with
the `filters.get(...)` results as min/max (`none` when the key is absent). -/
structure SearchClause where
  value : String
  min : Option FVal
  max : Option FVal
deriving DecidableEq, Repr

/-- The `query.search` list built by `divar_client.search`: the general price
clause when `price_min`/`price_max` is present, then — only for the `cars`
category token — the mileage and production-year clauses when their bounds are
present. -/
def buildSearchClauses (categoryToken : String) (filters : Filters) : List SearchClause :=
  let l : List SearchClause := []
  let l :=
    if hasKey filters "price_min" || hasKey filters "price_max" then
      l ++ [⟨"price", lookupk filters "price_min", lookupk filters "price_max"⟩]
    else l
  if categoryToken = "cars" then
    let l :=
      if hasKey filters "mileage_min" || hasKey filters "mileage_max" then
        l ++ [⟨"mileage", lookupk filters "mileage_min", lookupk filters "mileage_max"⟩]
      else l
    if hasKey filters "year_min" || hasKey filters "year_max" then
      l ++ [⟨"production-year", lookupk filters "year_min", lookupk filters "year_max"⟩]
    else l
  else l

/-- The full request payload shape of `divar_client.search`. -/
structure DivarQuery where
  category : String
  cities : List String
  search : List SearchClause
  page : Nat
deriving DecidableEq, Repr

/-- The payload `divar_client.search` posts for a subscription. -/
def buildQuery (citySlug categoryToken : String) (filters : Filters) : DivarQuery :=
  { category := categoryToken, cities := [citySlug],
    search := buildSearchClauses categoryToken filters, page := 1 }

/-- `CATEGORY_TOKENS` of `divar_client.py`. -/
def CATEGORY_TOKENS : List (String × String) := [
  ("car", "cars"), ("real_estate", "real-estate"), ("jobs", "jobs"),
  ("mobile", "mobile-phones"), ("electronics", "digital-devices"),
  ("fashion", "apparel"), ("home", "home-kitchen"),
  ("entertainment", "entertainment"), ("animals", "animals")]

/-! ## Dictionary lemmas -/

theorem find?_map_upd (fs : Filters) (k : String) (v : FVal) :
    (fs.map (fun p => if p.1 == k then (k, v) else p)).find? (fun p => p.1 == k) =
      if fs.any (fun p => p.1 == k) then some (k, v) else none := by
  induction fs with
  | nil => rfl
  | cons a fs ih =>
    rw [List.map_cons]
    by_cases h : a.1 = k
    · have h1 : (if a.1 == k then (k, v) else a) = (k, v) := by simp [h]
      rw [h1, List.find?_cons_of_pos _ (by simp)]
      simp [List.any_cons, h]
    · have h1 : (if a.1 == k then (k, v) else a) = a := by simp [h]
      rw [h1, List.find?_cons_of_neg _ (by simp [h]), ih, List.any_cons]
      have h2 : (a.1 == k) = false := by simp [h]
      rw [h2, Bool.false_or]

theorem find?_map_upd_other (fs : Filters) (k k' : String) (v : FVal) (h : k' ≠ k) :
    (fs.map (fun p => if p.1 == k then (k, v) else p)).find? (fun p => p.1 == k') =
      fs.find? (fun p => p.1 == k') := by
  induction fs with
  | nil => rfl
  | cons a fs ih =>
    rw [List.map_cons]
    by_cases ha : a.1 = k
    · have h1 : (if a.1 == k then (k, v) else a) = (k, v) := by simp [ha]
      rw [h1, List.find?_cons_of_neg _ (by simp [Ne.symm h]), ih,
          List.find?_cons_of_neg _ (by simp [ha, Ne.symm h])]
    · have h1 : (if a.1 == k then (k, v) else a) = a := by simp [ha]
      rw [h1]
      by_cases hk' : a.1 = k'
      · rw [List.find?_cons_of_pos _ (by simp [hk']), List.find?_cons_of_pos _ (by simp [hk'])]
      · rw [List.find?_cons_of_neg _ (by simp [hk']), List.find?_cons_of_neg _ (by simp [hk']), ih]

theorem lookupk_setk_self (fs : Filters) (k : String) (v : FVal) :
    lookupk (setk fs k v) k = some v := by
  unfold lookupk setk
  by_cases h : fs.any (fun p => p.1 == k) = true
  · rw [if_pos h, find?_map_upd, if_pos h]
    rfl
  · rw [if_neg h, List.find?_append]
    have hnone : fs.find? (fun p => p.1 == k) = none := by
      rw [List.find?_eq_none]
      intro x hx hpx
      exact h (List.any_eq_true.mpr ⟨x, hx, hpx⟩)
    rw [hnone]
    simp

theorem lookupk_setk_other (fs : Filters) (k k' : String) (v : FVal) (h : k' ≠ k) :
    lookupk (setk fs k v) k' = lookupk fs k' := by
  unfold lookupk setk
  by_cases hany : fs.any (fun p => p.1 == k) = true
  · rw [if_pos hany, find?_map_upd_other fs k k' v h]
  · rw [if_neg hany, List.find?_append]
    have h2 : List.find? (fun p => p.1 == k') [(k, v)] = none := by
      simp [Ne.symm h]
    rw [h2]
    cases fs.find? (fun p => p.1 == k') <;> simp

/-! ## Range-step parsing (claims about `store_filter_value`) -/

/-- C7.  For every range-mapped step, storing an encoded value containing the
delimiter splits it into low/high; if both halves parse as integers the two
mapped fields hold the integer bounds, otherwise they hold the raw
substrings. -/
theorem store_range_parses_bounds (category step kmin kmax : String) (fs : Filters) (v : String)
    (hmap : mapKeysOf category step = some (kmin, kmax))
    (hne : kmin ≠ kmax)
    (hdash : v.toList.contains '-' = true) :
    (∃ a b, pyInt (splitDash1 v).1 = some a ∧ pyInt (splitDash1 v).2 = some b ∧
      lookupk (store_filter_value category fs step v) kmin = some (.int a) ∧
      lookupk (store_filter_value category fs step v) kmax = some (.int b)) ∨
    (¬ ((pyInt (splitDash1 v).1).isSome ∧ (pyInt (splitDash1 v).2).isSome) ∧
      lookupk (store_filter_value category fs step v) kmin = some (.str (splitDash1 v).1) ∧
      lookupk (store_filter_value category fs step v) kmax = some (.str (splitDash1 v).2)) := by
  unfold store_filter_value
  rw [hmap]
  simp only [hdash, if_true]
  cases hlo : pyInt (splitDash1 v).1 with
  | none =>
    cases hhi : pyInt (splitDash1 v).2 with
    | none =>
      right
      refine ⟨by simp [hlo], ?_, ?_⟩
      · dsimp only
        rw [lookupk_setk_other _ _ _ _ hne, lookupk_setk_self]
      · dsimp only
        rw [lookupk_setk_self]
    | some b =>
      right
      refine ⟨by simp [hlo], ?_, ?_⟩
      · dsimp only
        rw [lookupk_setk_other _ _ _ _ hne, lookupk_setk_self]
      · dsimp only
        rw [lookupk_setk_self]
  | some a =>
    cases hhi : pyInt (splitDash1 v).2 with
    | none =>
      right
      refine ⟨by simp [hhi], ?_, ?_⟩
      · dsimp only
        rw [lookupk_setk_other _ _ _ _ hne, lookupk_setk_self]
      · dsimp only
        rw [lookupk_setk_self]
    | some b =>
      left
      refine ⟨a, b, rfl, rfl, ?_, ?_⟩
      · dsimp only
        rw [lookupk_setk_other _ _ _ _ hne, lookupk_setk_self]
      · dsimp only
        rw [lookupk_setk_self]

/-- Witness for C7: the spec's two examples, `"50000-100000"` on the car
mileage step and `"0-3"` on the animals age step, both yield integer bounds. -/
theorem store_range_parses_bounds_witness :
    (mapKeysOf "car" "mileage" = some ("mileage_min", "mileage_max") ∧
      "mileage_min" ≠ "mileage_max" ∧ "50000-100000".toList.contains '-' = true ∧
      lookupk (store_filter_value "car" [] "mileage" "50000-100000") "mileage_min" = some (.int 50000) ∧
      lookupk (store_filter_value "car" [] "mileage" "50000-100000") "mileage_max" = some (.int 100000)) ∧
    (mapKeysOf "animals" "age" = some ("age_min", "age_max") ∧
      lookupk (store_filter_value "animals" [] "age" "0-3") "age_min" = some (.int 0) ∧
      lookupk (store_filter_value "animals" [] "age" "0-3") "age_max" = some (.int 3)) := by
  refine ⟨⟨by decide, by decide, by decide, ?_⟩, by decide, ?_⟩
  · have h := store_range_parses_bounds "car" "mileage" "mileage_min" "mileage_max" []
      "50000-100000" (by decide) (by decide) (by decide)
    rcases h with ⟨a, b, ha, hb, h1, h2⟩ | ⟨hn, _, _⟩
    · have hae : a = 50000 := by
        have : pyInt (splitDash1 "50000-100000").1 = some 50000 := by decide
        rw [this] at ha
        exact (Option.some_injective _ ha.symm)
      have hbe : b = 100000 := by
        have : pyInt (splitDash1 "50000-100000").2 = some 100000 := by decide
        rw [this] at hb
        exact (Option.some_injective _ hb.symm)
      subst hae hbe
      exact ⟨h1, h2⟩
    · exact absurd (by decide : ((pyInt (splitDash1 "50000-100000").1).isSome ∧
        (pyInt (splitDash1 "50000-100000").2).isSome)) hn
  · have h := store_range_parses_bounds "animals" "age" "age_min" "age_max" []
      "0-3" (by decide) (by decide) (by decide)
    rcases h with ⟨a, b, ha, hb, h1, h2⟩ | ⟨hn, _, _⟩
    · have hae : a = 0 := by
        have : pyInt (splitDash1 "0-3").1 = some 0 := by decide
        rw [this] at ha
        exact (Option.some_injective _ ha.symm)
      have hbe : b = 3 := by
        have : pyInt (splitDash1 "0-3").2 = some 3 := by decide
        rw [this] at hb
        exact (Option.some_injective _ hb.symm)
      subst hae hbe
      exact ⟨h1, h2⟩
    · exact absurd (by decide : ((pyInt (splitDash1 "0-3").1).isSome ∧
        (pyInt (splitDash1 "0-3").2).isSome)) hn

/-- C10.  For every range-mapped step and every encoded value containing the
delimiter, the two stored bounds have the same type: both integers, or both
the raw substrings — never one of each. -/
theorem store_range_bounds_same_type (category step kmin kmax : String) (fs : Filters) (v : String)
    (hmap : mapKeysOf category step = some (kmin, kmax))
    (hne : kmin ≠ kmax)
    (hdash : v.toList.contains '-' = true) :
    (∃ a b, lookupk (store_filter_value category fs step v) kmin = some (.int a) ∧
      lookupk (store_filter_value category fs step v) kmax = some (.int b)) ∨
    (lookupk (store_filter_value category fs step v) kmin = some (.str (splitDash1 v).1) ∧
      lookupk (store_filter_value category fs step v) kmax = some (.str (splitDash1 v).2)) := by
  rcases store_range_parses_bounds category step kmin kmax fs v hmap hne hdash with
    ⟨a, b, _, _, h1, h2⟩ | ⟨_, h1, h2⟩
  · exact Or.inl ⟨a, b, h1, h2⟩
  · exact Or.inr ⟨h1, h2⟩

/-- Witness for C10: `"50000-abc"` on the car mileage step, where only the
second half fails to parse, stores both fields as raw strings. -/
theorem store_range_bounds_same_type_witness :
    (mapKeysOf "car" "mileage" = some ("mileage_min", "mileage_max") ∧
      "mileage_min" ≠ "mileage_max" ∧ "50000-abc".toList.contains '-' = true) ∧
    ((∃ a b, lookupk (store_filter_value "car" [] "mileage" "50000-abc") "mileage_min" = some (.int a) ∧
        lookupk (store_filter_value "car" [] "mileage" "50000-abc") "mileage_max" = some (.int b)) ∨
      (lookupk (store_filter_value "car" [] "mileage" "50000-abc") "mileage_min" =
          some (.str (splitDash1 "50000-abc").1) ∧
        lookupk (store_filter_value "car" [] "mileage" "50000-abc") "mileage_max" =
          some (.str (splitDash1 "50000-abc").2))) :=
  ⟨⟨by decide, by decide, by decide⟩,
    store_range_bounds_same_type "car" "mileage" "mileage_min" "mileage_max" []
      "50000-abc" (by decide) (by decide) (by decide)⟩

/-! ## The MRU deduplication (`list(dict.fromkeys(...))`) keeps first occurrences -/

theorem pyFromKeysAux_eq (l : List String) : ∀ acc : List String,
    pyFromKeysAux acc l = acc ++ (dedupeFirst l).filter (fun y => !(acc.contains y)) := by
  induction l with
  | nil => intro acc; simp [pyFromKeysAux, dedupeFirst]
  | cons x xs ih =>
    intro acc
    simp only [pyFromKeysAux, dedupeFirst]
    by_cases h : acc.contains x = true
    · rw [if_pos h, ih acc, List.filter_cons]
      have hx : (!acc.contains x) = false := by rw [h]; rfl
      rw [hx, if_neg (by simp), List.filter_filter]
      congr 1
      apply List.filter_congr
      intro a _
      by_cases hc : acc.contains a = true
      · rw [hc]; rfl
      · have hc' : acc.contains a = false := by revert hc; cases acc.contains a <;> simp
        have hax : (a == x) = false := by
          rcases Bool.eq_false_or_eq_true (a == x) with hb | hb
          · exact absurd (eq_of_beq hb ▸ hc') (by rw [h]; exact fun hf => Bool.noConfusion hf)
          · exact hb
        rw [hax, hc']
        rfl
    · rw [if_neg h, ih (acc ++ [x]), List.filter_cons]
      have h' : acc.contains x = false := by revert h; cases acc.contains x <;> simp
      have hx : (!acc.contains x) = true := by rw [h']; rfl
      rw [hx, if_pos rfl, List.append_assoc, List.singleton_append, List.filter_filter]
      congr 2
      apply List.filter_congr
      intro a _
      rw [List.contains_eq_any_beq, List.any_append, ← List.contains_eq_any_beq]
      have hsing : [x].any (fun b => a == b) = (a == x) := by simp [List.any_cons]
      rw [hsing, Bool.not_or, Bool.and_comm]

/-- `list(dict.fromkeys(l))` equals the spec's dedupe: keep the first
occurrence of each identifier, preserving order. -/
theorem pyFromKeys_eq_dedupeFirst (l : List String) : pyFromKeys l = dedupeFirst l := by
  rw [pyFromKeys, pyFromKeysAux_eq l []]
  rw [List.nil_append]
  have : ∀ y : List String, y.filter (fun a => !(List.contains [] a)) = y := by
    intro y
    apply List.filter_eq_self.mpr
    intro a _
    rfl
  exact this _

/-! ## Per-subscription sweep lemmas -/

theorem dispatchAll_ok (dispatch : Post → Except Unit Unit) (l : List Post)
    (h : ∀ x ∈ l, dispatch x = Except.ok ()) :
    dispatchAll dispatch l = (l, true) := by
  induction l with
  | nil => rfl
  | cons x xs ih =>
    simp only [dispatchAll]
    have hhd : dispatch x = Except.ok () := h x (List.mem_cons_self x xs)
    have htl := ih (fun z hz => h z (List.mem_cons_of_mem x hz))
    rw [hhd, htl]

/-- C1.  For every subscription whose sweep step finds a non-empty new-item
delta and dispatches it completely, the persisted seen list equals the first
40 entries of the first-occurrence dedupe of the new identifiers (in dispatch
order) prepended to the existing seen list; in particular it never exceeds 40
entries. -/
theorem seen_update_formula (search : Playlist → Except Unit (List Post))
    (dispatch : Nat → Post → Except Unit Unit) (p : Playlist) (posts : List Post)
    (hs : search p = Except.ok posts)
    (hdisp : ∀ x ∈ posts.filter (isNewPost p.lastSeenIds), dispatch p.userId x = Except.ok ())
    (hne : posts.filter (isNewPost p.lastSeenIds) ≠ []) :
    (processPlaylist search dispatch p).1.lastSeenIds =
      (dedupeFirst ((posts.filter (isNewPost p.lastSeenIds)).filterMap truthyId ++
        p.lastSeenIds)).take 40 ∧
    (processPlaylist search dispatch p).1.lastSeenIds.length ≤ 40 := by
  have hproc : (processPlaylist search dispatch p).1.lastSeenIds =
      (pyFromKeys ((posts.filter (isNewPost p.lastSeenIds)).filterMap truthyId ++
        p.lastSeenIds)).take 40 := by
    unfold processPlaylist
    rw [hs]
    dsimp only
    rw [if_neg (by simp [hne]), dispatchAll_ok _ _ hdisp]
    rfl
  constructor
  · rw [hproc, pyFromKeys_eq_dedupeFirst]
  · rw [hproc, List.length_take]
    exact Nat.min_le_left _ _

/-- Concrete sweep inputs for the C1 witness: seen `[a,b,c]`, provider returns
two fresh items `d`, `e`. -/
def wPostD : Post := { id := some "d", title := some "td", url := some "https://divar.ir/v/d", images := [] }

def wPostE : Post := { id := some "e", title := some "te", url := some "https://divar.ir/v/e", images := [] }

def wPl : Playlist :=
  { plid := 1, userId := 5, category := "car", city := "tehran", district := none,
    filters := [], lastSeenIds := ["a", "b", "c"] }

def wSearch : Playlist → Except Unit (List Post) := fun _ => Except.ok [wPostD, wPostE]

def wDispatch : Nat → Post → Except Unit Unit := fun _ _ => Except.ok ()

/-- Witness for C1 at the spec's own example: seen `[a,b,c]`, new `[d,e]`. -/
theorem seen_update_formula_witness :
    (wSearch wPl = Except.ok [wPostD, wPostE]) ∧
    ([wPostD, wPostE].filter (isNewPost wPl.lastSeenIds) ≠ []) ∧
    ((processPlaylist wSearch wDispatch wPl).1.lastSeenIds =
      (dedupeFirst (([wPostD, wPostE].filter (isNewPost wPl.lastSeenIds)).filterMap truthyId ++
        wPl.lastSeenIds)).take 40 ∧
      (processPlaylist wSearch wDispatch wPl).1.lastSeenIds.length ≤ 40) ∧
    (processPlaylist wSearch wDispatch wPl).1.lastSeenIds = ["d", "e", "a", "b", "c"] :=
  ⟨rfl, by decide,
    seen_update_formula wSearch wDispatch wPl [wPostD, wPostE] rfl (fun x _ => rfl) (by decide),
    by decide⟩

/-- C8.  The new-item delta is exactly the sublist of provider results whose
identifier is not in the subscription's seen set, in provider order, and the
items are dispatched in that same order (stated for results that all carry an
identifier, as provider items do, and an error-free sink). -/
theorem new_delta_order (search : Playlist → Except Unit (List Post))
    (dispatch : Nat → Post → Except Unit Unit) (p : Playlist) (posts : List Post)
    (hs : search p = Except.ok posts)
    (hids : ∀ x ∈ posts, truthyStr x.id = true)
    (hdisp : ∀ x, dispatch p.userId x = Except.ok ()) :
    (processPlaylist search dispatch p).2.1 =
      posts.filter (fun x => !(p.lastSeenIds.contains (x.id.getD ""))) := by
  have hfil : posts.filter (isNewPost p.lastSeenIds) =
      posts.filter (fun x => !(p.lastSeenIds.contains (x.id.getD ""))) := by
    apply List.filter_congr
    intro x hx
    unfold isNewPost
    rw [hids x hx, Bool.true_and]
  unfold processPlaylist
  rw [hs]
  dsimp only
  rw [hfil]
  cases hemp : (posts.filter (fun x => !(p.lastSeenIds.contains (x.id.getD "")))).isEmpty with
  | true =>
    rw [if_pos rfl]
    exact (List.isEmpty_eq_true.mp hemp).symm
  | false =>
    rw [if_neg (by decide), dispatchAll_ok _ _ (fun x _ => hdisp x)]
    rfl

/-- Concrete inputs for the C8 witness: seen contains `p2`, provider returns
`[p1, p2, p3]`, so the delta is `[p1, p3]` in provider order. -/
def w8Post1 : Post := { id := some "p1", title := none, url := some "https://divar.ir/v/p1", images := [] }

def w8Post2 : Post := { id := some "p2", title := none, url := some "https://divar.ir/v/p2", images := [] }

def w8Post3 : Post := { id := some "p3", title := none, url := some "https://divar.ir/v/p3", images := [] }

def w8Pl : Playlist :=
  { plid := 2, userId := 9, category := "mobile", city := "mashhad", district := none,
    filters := [], lastSeenIds := ["p2"] }

def w8Search : Playlist → Except Unit (List Post) := fun _ => Except.ok [w8Post1, w8Post2, w8Post3]

/-- Witness for C8: the delta `[p1, p3]` is dispatched in provider order. -/
theorem new_delta_order_witness :
    (w8Search w8Pl = Except.ok [w8Post1, w8Post2, w8Post3]) ∧
    ((processPlaylist w8Search wDispatch w8Pl).2.1 =
      [w8Post1, w8Post2, w8Post3].filter
        (fun x => !(w8Pl.lastSeenIds.contains (x.id.getD "")))) ∧
    (processPlaylist w8Search wDispatch w8Pl).2.1 = [w8Post1, w8Post3] :=
  ⟨rfl,
    new_delta_order w8Search wDispatch w8Pl [w8Post1, w8Post2, w8Post3] rfl
      (fun x hx => by fin_cases hx <;> rfl) (fun x => rfl),
    by decide⟩

/-! ## Sweep-level isolation (claims C5, C4) -/

theorem processPlaylist_ok_of_dispatch_ok (search : Playlist → Except Unit (List Post))
    (dispatch : Nat → Post → Except Unit Unit) (p : Playlist)
    (hdisp : ∀ u x, dispatch u x = Except.ok ()) :
    (processPlaylist search dispatch p).2.2 = true := by
  unfold processPlaylist
  cases hs : search p with
  | error e => rfl
  | ok posts =>
    dsimp only
    cases hemp : (posts.filter (isNewPost p.lastSeenIds)).isEmpty with
    | true => rw [if_pos rfl]
    | false =>
      rw [if_neg (by decide), dispatchAll_ok _ _ (fun x _ => hdisp _ x), if_pos rfl]

theorem check_once_all_ok (search : Playlist → Except Unit (List Post))
    (dispatch : Nat → Post → Except Unit Unit)
    (hdisp : ∀ u x, dispatch u x = Except.ok ()) :
    ∀ ps : List Playlist, check_once search dispatch ps =
      (ps.map (sweepStep search dispatch), ps.flatMap (sweepSent search dispatch), true) := by
  intro ps
  induction ps with
  | nil => rfl
  | cons p ps ih =>
    unfold check_once
    dsimp only
    rw [processPlaylist_ok_of_dispatch_ok search dispatch p hdisp, if_pos rfl, ih,
      List.map_cons, List.flatMap_cons]
    rfl

/-- The sweep step leaves a playlist untouched and dispatches nothing for it
when its provider search raises. -/
theorem sweepStep_of_provider_failure (search : Playlist → Except Unit (List Post))
    (dispatch : Nat → Post → Except Unit Unit) (sk : Playlist)
    (hfail : search sk = Except.error ()) :
    sweepStep search dispatch sk = sk ∧ sweepSent search dispatch sk = [] := by
  unfold sweepStep sweepSent processPlaylist
  rw [hfail]
  exact ⟨rfl, rfl⟩

/-- C5.  A provider failure for subscription `sk` in a sweep skips only `sk`
(seen set unchanged, nothing dispatched for it); every other subscription is
still searched, dispatched and updated, and the sweep completes (stated for a
sweep whose notification sink raises no errors, so that the provider failure
is the only exceptional event). -/
theorem provider_failure_isolated (search : Playlist → Except Unit (List Post))
    (dispatch : Nat → Post → Except Unit Unit) (l₁ l₂ : List Playlist) (sk : Playlist)
    (hfail : search sk = Except.error ())
    (hdisp : ∀ u x, dispatch u x = Except.ok ()) :
    check_once search dispatch (l₁ ++ sk :: l₂) =
      (l₁.map (sweepStep search dispatch) ++ sk :: l₂.map (sweepStep search dispatch),
       l₁.flatMap (sweepSent search dispatch) ++ l₂.flatMap (sweepSent search dispatch),
       true) := by
  obtain ⟨hstep, hsent⟩ := sweepStep_of_provider_failure search dispatch sk hfail
  rw [check_once_all_ok search dispatch hdisp]
  rw [List.map_append, List.map_cons, hstep]
  rw [List.flatMap_append, List.flatMap_cons, hsent, List.nil_append]

/-- Concrete inputs for the C5 witness: three subscriptions, the middle one's
provider search raises, the outer two each receive one fresh item. -/
def w5PlA : Playlist :=
  { plid := 1, userId := 11, category := "home", city := "tehran", district := none,
    filters := [], lastSeenIds := [] }

def w5PlB : Playlist :=
  { plid := 2, userId := 12, category := "car", city := "karaj", district := none,
    filters := [], lastSeenIds := ["x1"] }

def w5PlC : Playlist :=
  { plid := 3, userId := 13, category := "animals", city := "shiraz", district := none,
    filters := [], lastSeenIds := [] }

def w5Post : Post := { id := some "n1", title := none, url := some "https://divar.ir/v/n1", images := [] }

def w5Search : Playlist → Except Unit (List Post) :=
  fun p => if p.plid = 2 then Except.error () else Except.ok [w5Post]

/-- Witness for C5: the failing middle subscription is skipped unchanged while
its neighbours are updated and the sweep completes. -/
theorem provider_failure_isolated_witness :
    (w5Search w5PlB = Except.error ()) ∧
    check_once w5Search wDispatch ([w5PlA] ++ w5PlB :: [w5PlC]) =
      ([w5PlA].map (sweepStep w5Search wDispatch) ++
        w5PlB :: [w5PlC].map (sweepStep w5Search wDispatch),
       [w5PlA].flatMap (sweepSent w5Search wDispatch) ++
        [w5PlC].flatMap (sweepSent w5Search wDispatch),
       true) ∧
    (sweepStep w5Search wDispatch w5PlA).lastSeenIds = ["n1"] ∧
    (sweepStep w5Search wDispatch w5PlC).lastSeenIds = ["n1"] :=
  ⟨rfl,
    provider_failure_isolated w5Search wDispatch [w5PlA] [w5PlC] w5PlB rfl (fun u x => rfl),
    by decide, by decide⟩

/-- A plain `send_message` that succeeds guarantees `send_post` raises
nothing, whatever the media-group send or the detail fetch do: any failure
inside the gallery `try` falls back to the plain message. -/
theorem send_post_ok_of_messageOk (bot : Bot) (chatId : Nat) (post : Post)
    (h : bot.messageOk chatId post = true) :
    send_post bot chatId post = Except.ok () := by
  unfold send_post
  simp [h]

/-- C4 amended.  A failure in the media-group path while delivering an item is
caught inside `send_post` (falling back to a plain text message) and, as long
as the plain text sends succeed, every new item is dispatched and the seen-set
update proceeds; it is only a failing plain text send that propagates and
aborts the rest of the sweep. -/
theorem dispatch_media_failure_contained (bot : Bot)
    (search : Playlist → Except Unit (List Post)) (p : Playlist) (posts : List Post)
    (hs : search p = Except.ok posts)
    (hmsg : ∀ x, bot.messageOk p.userId x = true)
    (hne : posts.filter (isNewPost p.lastSeenIds) ≠ []) :
    processPlaylist search (send_post bot) p =
      ({ p with lastSeenIds :=
          (dedupeFirst ((posts.filter (isNewPost p.lastSeenIds)).filterMap truthyId ++
            p.lastSeenIds)).take 40 },
       posts.filter (isNewPost p.lastSeenIds), true) := by
  unfold processPlaylist
  rw [hs]
  dsimp only
  rw [if_neg (by simp [hne]),
    dispatchAll_ok _ _ (fun x _ => send_post_ok_of_messageOk bot p.userId x (hmsg x)),
    if_pos rfl, ← pyFromKeys_eq_dedupeFirst]

/-- Concrete inputs for the C4 counterexample: two fresh items without images;
the plain message send for the first one fails. -/
def failPost1 : Post := { id := some "p1", title := some "t1", url := some "https://divar.ir/v/p1", images := [] }

def failPost2 : Post := { id := some "p2", title := some "t2", url := some "https://divar.ir/v/p2", images := [] }

def failBot : Bot :=
  { mediaGroupOk := fun _ _ => true,
    messageOk := fun _ post => !(post.id == some "p1"),
    details := fun _ => some [] }

def failSearch : Playlist → Except Unit (List Post) := fun _ => Except.ok [failPost1, failPost2]

def failPl : Playlist :=
  { plid := 7, userId := 7, category := "car", city := "tehran", district := none,
    filters := [], lastSeenIds := [] }

/-- C4 counterexample: when the plain message send for the first new item
fails, `send_post` raises, and the sweep aborts — the second item is never
dispatched and the subscription's seen set is not updated, contradicting "a
dispatch failure is caught and does not prevent the dispatch of later items
nor the seen-set update". -/
theorem dispatch_failure_aborts_sweep_cex :
    send_post failBot 7 failPost1 = Except.error () ∧
    check_once failSearch (send_post failBot) [failPl] = ([failPl], [], false) := by
  exact ⟨rfl, rfl⟩

/-- Concrete inputs for the C4 amended witness: a media-group send that always
fails and a detail fetch that always raises, while plain sends succeed. -/
def w4Bot : Bot :=
  { mediaGroupOk := fun _ _ => false, messageOk := fun _ _ => true, details := fun _ => none }

def w4Post : Post :=
  { id := some "q1", title := none, url := some "https://divar.ir/v/q1", images := ["i1", "i2"] }

def w4Pl : Playlist :=
  { plid := 4, userId := 3, category := "fashion", city := "tabriz", district := none,
    filters := [], lastSeenIds := ["old"] }

def w4Search : Playlist → Except Unit (List Post) := fun _ => Except.ok [w4Post]

/-- Witness for the amended C4: with the media-group send failing but plain
sends succeeding, the item is delivered and the seen set updated. -/
theorem dispatch_media_failure_contained_witness :
    (w4Search w4Pl = Except.ok [w4Post]) ∧
    ([w4Post].filter (isNewPost w4Pl.lastSeenIds) ≠ []) ∧
    processPlaylist w4Search (send_post w4Bot) w4Pl =
      ({ w4Pl with lastSeenIds :=
          (dedupeFirst (([w4Post].filter (isNewPost w4Pl.lastSeenIds)).filterMap truthyId ++
            w4Pl.lastSeenIds)).take 40 },
       [w4Post].filter (isNewPost w4Pl.lastSeenIds), true) :=
  ⟨rfl, by decide,
    dispatch_media_failure_contained w4Bot w4Search w4Pl [w4Post] rfl (fun x => rfl) (by decide)⟩

/-! ## Provider query translation (claim C9) -/

theorem hasKey_eq_isSome (fs : Filters) (k : String) :
    hasKey fs k = (lookupk fs k).isSome := by
  induction fs with
  | nil => rfl
  | cons a fs ih =>
    unfold hasKey lookupk at ih ⊢
    rw [List.any_cons]
    by_cases h : a.1 = k
    · simp [h]
    · have hb : (a.1 == k) = false := by simp [h]
      rw [List.find?_cons_of_neg _ (by simp [h]), hb, Bool.false_or, ih]

/-- The only criteria keys `divar_client.search` ever reads. -/
def relevantQueryKeys : List String :=
  ["price_min", "price_max", "mileage_min", "mileage_max", "year_min", "year_max"]

/-- C9.  The query translation appends a price clause exactly when
`price_min` or `price_max` is present, appends mileage and production-year
clauses exactly when the category token is `cars` and the corresponding
bounds are present, and reads no other criteria fields: two criteria maps
agreeing on the six bound keys produce identical clause lists. -/
theorem query_translation (token : String) (fs fs' : Filters)
    (hagree : ∀ k ∈ relevantQueryKeys, lookupk fs k = lookupk fs' k) :
    ((buildSearchClauses token fs).any (fun c => c.value == "price") =
      (hasKey fs "price_min" || hasKey fs "price_max")) ∧
    ((buildSearchClauses token fs).any (fun c => c.value == "mileage") =
      (decide (token = "cars") && (hasKey fs "mileage_min" || hasKey fs "mileage_max"))) ∧
    ((buildSearchClauses token fs).any (fun c => c.value == "production-year") =
      (decide (token = "cars") && (hasKey fs "year_min" || hasKey fs "year_max"))) ∧
    buildSearchClauses token fs = buildSearchClauses token fs' := by
  have e1 : lookupk fs "price_min" = lookupk fs' "price_min" := hagree _ (by decide)
  have e2 : lookupk fs "price_max" = lookupk fs' "price_max" := hagree _ (by decide)
  have e3 : lookupk fs "mileage_min" = lookupk fs' "mileage_min" := hagree _ (by decide)
  have e4 : lookupk fs "mileage_max" = lookupk fs' "mileage_max" := hagree _ (by decide)
  have e5 : lookupk fs "year_min" = lookupk fs' "year_min" := hagree _ (by decide)
  have e6 : lookupk fs "year_max" = lookupk fs' "year_max" := hagree _ (by decide)
  have h1 : hasKey fs "price_min" = hasKey fs' "price_min" := by
    rw [hasKey_eq_isSome, hasKey_eq_isSome, e1]
  have h2 : hasKey fs "price_max" = hasKey fs' "price_max" := by
    rw [hasKey_eq_isSome, hasKey_eq_isSome, e2]
  have h3 : hasKey fs "mileage_min" = hasKey fs' "mileage_min" := by
    rw [hasKey_eq_isSome, hasKey_eq_isSome, e3]
  have h4 : hasKey fs "mileage_max" = hasKey fs' "mileage_max" := by
    rw [hasKey_eq_isSome, hasKey_eq_isSome, e4]
  have h5 : hasKey fs "year_min" = hasKey fs' "year_min" := by
    rw [hasKey_eq_isSome, hasKey_eq_isSome, e5]
  have h6 : hasKey fs "year_max" = hasKey fs' "year_max" := by
    rw [hasKey_eq_isSome, hasKey_eq_isSome, e6]
  refine ⟨?_, ?_, ?_, ?_⟩
  · unfold buildSearchClauses
    by_cases ht : token = "cars" <;>
      by_cases hp : (hasKey fs "price_min" || hasKey fs "price_max") = true <;>
        by_cases hm : (hasKey fs "mileage_min" || hasKey fs "mileage_max") = true <;>
          by_cases hy : (hasKey fs "year_min" || hasKey fs "year_max") = true <;>
            simp [ht, hp, hm, hy]
  · unfold buildSearchClauses
    by_cases ht : token = "cars" <;>
      by_cases hp : (hasKey fs "price_min" || hasKey fs "price_max") = true <;>
        by_cases hm : (hasKey fs "mileage_min" || hasKey fs "mileage_max") = true <;>
          by_cases hy : (hasKey fs "year_min" || hasKey fs "year_max") = true <;>
            simp [ht, hp, hm, hy]
  · unfold buildSearchClauses
    by_cases ht : token = "cars" <;>
      by_cases hp : (hasKey fs "price_min" || hasKey fs "price_max") = true <;>
        by_cases hm : (hasKey fs "mileage_min" || hasKey fs "mileage_max") = true <;>
          by_cases hy : (hasKey fs "year_min" || hasKey fs "year_max") = true <;>
            simp [ht, hp, hm, hy]
  · unfold buildSearchClauses
    dsimp only
    rw [← h1, ← h2, ← h3, ← h4, ← h5, ← h6, ← e1, ← e2, ← e3, ← e4, ← e5, ← e6]

/-- Concrete criteria for the C9 witness: an extra unread key `foo` does not
affect the produced clause list. -/
def w9fs : Filters := [("price_min", .int 5), ("foo", .str "bar"), ("mileage_max", .int 9)]

def w9fs' : Filters := [("price_min", .int 5), ("mileage_max", .int 9)]

/-- Witness for C9 at the `cars` token with concrete criteria. -/
theorem query_translation_witness :
    (∀ k ∈ relevantQueryKeys, lookupk w9fs k = lookupk w9fs' k) ∧
    (((buildSearchClauses "cars" w9fs).any (fun c => c.value == "price") =
        (hasKey w9fs "price_min" || hasKey w9fs "price_max")) ∧
      ((buildSearchClauses "cars" w9fs).any (fun c => c.value == "mileage") =
        (decide (("cars" : String) = "cars") &&
          (hasKey w9fs "mileage_min" || hasKey w9fs "mileage_max"))) ∧
      ((buildSearchClauses "cars" w9fs).any (fun c => c.value == "production-year") =
        (decide (("cars" : String) = "cars") &&
          (hasKey w9fs "year_min" || hasKey w9fs "year_max"))) ∧
      buildSearchClauses "cars" w9fs = buildSearchClauses "cars" w9fs') :=
  ⟨by decide, query_translation "cars" w9fs w9fs' (by decide)⟩

/-! ## Full-flow walk (claim C6) -/

/-- Append a key if it is not already present (the effect of one Python dict
assignment on the key list). -/
def addKey (l : List String) (k : String) : List String :=
  if l.any (fun x => x == k) then l else l ++ [k]

theorem keys_setk (fs : Filters) (k : String) (v : FVal) :
    keys (setk fs k v) = addKey (keys fs) k := by
  unfold keys setk addKey
  have hany : ∀ gs : Filters, ((gs.map (fun p => p.1)).any (fun x => x == k)) =
      gs.any (fun p => p.1 == k) := by
    intro gs
    induction gs with
    | nil => rfl
    | cons a gs ih => rw [List.map_cons, List.any_cons, List.any_cons, ih]
  rw [hany fs]
  by_cases h : fs.any (fun p => p.1 == k) = true
  · rw [if_pos h, if_pos h, List.map_map]
    have hfun : ((fun (p : String × FVal) => p.1) ∘ (fun p => if p.1 == k then (k, v) else p)) =
        fun (p : String × FVal) => p.1 := by
      funext p
      by_cases hp : p.1 = k
      · simp [hp]
      · simp [hp]
    rw [hfun]
  · rw [if_neg h, if_neg h, List.map_append]
    rfl

/-- The criteria fields one answered step populates: the two mapped bound
names for a range-mapped step, the step name itself for an enum step. -/
def stepFields (category step : String) : List String :=
  match mapKeysOf category step with
  | some pr => [pr.1, pr.2]
  | none => [step]

/-- The effect of one answered step on the criteria key list (independent of
the answered value). -/
def addStepKeys (category : String) (l : List String) (step : String) : List String :=
  match mapKeysOf category step with
  | some pr => addKey (addKey l pr.1) pr.2
  | none => addKey l step

theorem keys_store (category : String) (fs : Filters) (step value : String) :
    keys (store_filter_value category fs step value) = addStepKeys category (keys fs) step := by
  unfold store_filter_value addStepKeys
  cases h : mapKeysOf category step with
  | none => exact keys_setk fs step (.str value)
  | some pr =>
    obtain ⟨kmin, kmax⟩ := pr
    dsimp only
    by_cases hd : value.toList.contains '-' = true
    · rw [if_pos hd]
      cases pyInt (splitDash1 value).1 <;> cases pyInt (splitDash1 value).2 <;>
        · dsimp only
          rw [keys_setk, keys_setk]
    · rw [if_neg hd, keys_setk, keys_setk]

/-- Answer a sequence of (step, value) pairs in order through
`store_filter_value`. -/
def storeAll (category : String) (fs : Filters) : List (String × String) → Filters
  | [] => fs
  | (s, v) :: rest => storeAll category (store_filter_value category fs s v) rest

theorem keys_storeAll (category : String) (prs : List (String × String)) :
    ∀ fs : Filters, keys (storeAll category fs prs) =
      prs.foldl (fun l pr => addStepKeys category l pr.1) (keys fs) := by
  induction prs with
  | nil => intro fs; rfl
  | cons a rest ih =>
    intro fs
    obtain ⟨s, v⟩ := a
    show keys (storeAll category (store_filter_value category fs s v) rest) = _
    rw [ih, keys_store, List.foldl_cons]

/-- Walking the remaining flow with exactly as many answers as remaining steps
folds `store_filter_value` over the (step, value) pairs and finishes with the
index at the end of the flow. -/
theorem runFlow_eq : ∀ (vs : List String) (st : BuilderState),
    st.flowIdx + vs.length = st.flow.length → vs ≠ [] →
    runFlow st vs = some
      { category := st.category, city := st.city, district := st.district,
        filters := storeAll st.category st.filters ((st.flow.drop st.flowIdx).zip vs),
        flow := st.flow, flowIdx := st.flow.length } := by
  intro vs
  induction vs with
  | nil => intro st _ hne; exact absurd rfl hne
  | cons v vs ih =>
    intro st hlen _
    have hlt : st.flowIdx < st.flow.length := by
      rw [← hlen, List.length_cons]
      omega
    have hget : st.flow.get? st.flowIdx = some (st.flow.get ⟨st.flowIdx, hlt⟩) :=
      List.get?_eq_get hlt
    simp only [runFlow]
    rw [hget]
    unfold on_callback_flt
    dsimp only
    rw [List.drop_eq_getElem_cons hlt, List.zip_cons_cons]
    by_cases hend : st.flowIdx + 1 < st.flow.length
    · rw [dif_pos hend]
      have hvs : vs ≠ [] := by
        rw [← List.length_pos]
        rw [List.length_cons] at hlen
        omega
      have hlen' : st.flowIdx + 1 + vs.length = st.flow.length := by
        rw [List.length_cons] at hlen
        omega
      exact ih
        { category := st.category, city := st.city, district := st.district,
          filters := store_filter_value st.category st.filters (st.flow.get ⟨st.flowIdx, hlt⟩) v,
          flow := st.flow, flowIdx := st.flowIdx + 1 } hlen' hvs
    · rw [dif_neg hend]
      have hvs : vs = [] := by
        apply List.eq_nil_of_length_eq_zero
        rw [List.length_cons] at hlen
        omega
      subst hvs
      rw [List.zip_nil_right]
      have hidx : st.flowIdx + 1 = st.flow.length := by
        rw [List.length_cons] at hlen
        omega
      exact congrArg (fun n : Nat => some
        (⟨st.category, st.city, st.district,
          store_filter_value st.category st.filters (st.flow.get ⟨st.flowIdx, hlt⟩) v,
          st.flow, n⟩ : BuilderState)) hidx

theorem foldl_zip_fst (g : List String → String → List String)
    (l₁ : List String) (l₂ : List String) (init : List String)
    (h : l₁.length ≤ l₂.length) :
    (l₁.zip l₂).foldl (fun acc pr => g acc pr.1) init = l₁.foldl g init := by
  conv_rhs => rw [← List.map_fst_zip l₁ l₂ h]
  rw [List.foldl_map]

/-- Walking a whole category flow with one answer per step finishes the flow,
with the final criteria given by folding `store_filter_value` over the
(step, value) pairs; the resulting key list depends only on the steps. -/
theorem walk_core (category city : String) (district : Option String) (cfg : CategoryFlow)
    (vs : List String) (hlen : vs.length = cfg.steps.length) (hne : cfg.steps ≠ []) :
    runFlow (initState category city district cfg) vs = some
      { category := category, city := city, district := district,
        filters := storeAll category [] (cfg.steps.zip vs),
        flow := cfg.steps, flowIdx := cfg.steps.length } ∧
    keys (storeAll category [] (cfg.steps.zip vs)) =
      cfg.steps.foldl (addStepKeys category) [] := by
  constructor
  · have hvs : vs ≠ [] := by
      rw [← List.length_pos, hlen, List.length_pos]
      exact hne
    have hl : (initState category city district cfg).flowIdx + vs.length =
        (initState category city district cfg).flow.length := by
      show 0 + vs.length = cfg.steps.length
      rw [Nat.zero_add, hlen]
    exact runFlow_eq vs (initState category city district cfg) hl hvs
  · rw [keys_storeAll]
    show (cfg.steps.zip vs).foldl (fun l pr => addStepKeys category l pr.1) [] = _
    exact foldl_zip_fst (addStepKeys category) cfg.steps vs [] (le_of_eq hlen.symm)

/-- C6.  For every category in the catalog, answering every step in order with
one of its declared option values finishes the flow, and the finished criteria
key list is exactly the two mapped bound names for each range-mapped step and
the step's own name for each enum step — no extra keys, no missing keys. -/
theorem full_walk_finished_fields (category : String) (cfg : CategoryFlow)
    (hcat : (category, cfg) ∈ CATEGORY_FLOWS)
    (city : String) (district : Option String) (vs : List String)
    (hlen : vs.length = cfg.steps.length)
    (hvalid : ∀ pr ∈ cfg.steps.zip vs, pr.2 ∈ optionValues category pr.1) :
    ∃ stF, runFlow (initState category city district cfg) vs = some stF ∧
      keys stF.filters = cfg.steps.flatMap (stepFields category) := by
  simp only [CATEGORY_FLOWS, List.mem_cons, List.not_mem_nil, or_false,
    Prod.mk.injEq] at hcat
  rcases hcat with hc | hc | hc | hc | hc | hc | hc | hc | hc <;>
    · obtain ⟨rfl, rfl⟩ := hc
      obtain ⟨hrun, hkeys⟩ := walk_core _ city district _ vs hlen (by decide)
      exact ⟨_, hrun, by rw [hkeys]; decide⟩

/-- The entertainment category's flow configuration, for the C6 witness. -/
def w6cfg : CategoryFlow := (flowOf "entertainment").getD ⟨"", [], [], [], []⟩

/-- Witness for C6: walking the entertainment flow with the declared answers
`videogame` then `0-2000000` finishes with criteria keys
`[sub, price_min, price_max]`. -/
theorem full_walk_finished_fields_witness :
    (("entertainment", w6cfg) ∈ CATEGORY_FLOWS ∧
      (["videogame", "0-2000000"] : List String).length = w6cfg.steps.length ∧
      (∀ pr ∈ w6cfg.steps.zip ["videogame", "0-2000000"],
        pr.2 ∈ optionValues "entertainment" pr.1)) ∧
    (∃ stF, runFlow (initState "entertainment" "tehran" none w6cfg)
        ["videogame", "0-2000000"] = some stF ∧
      keys stF.filters = w6cfg.steps.flatMap (stepFields "entertainment")) :=
  ⟨⟨by decide, by decide, by decide⟩,
    full_walk_finished_fields "entertainment" w6cfg (by decide) "tehran" none
      ["videogame", "0-2000000"] (by decide) (by decide)⟩

/-! ## Step answering performs no validation (claims C2, C3) -/

/-- A fresh car-category session (category, city and district chosen, no step
answered yet), used as concrete input below. -/
def carState : BuilderState :=
  { category := "car", city := "tehran", district := none, filters := [],
    flow := ["mileage", "year", "price"], flowIdx := 0 }

/-- C2 counterexample: answering the car mileage step with `"999-zzz"`, a value
not among the step's declared option values, does not fail — the value is
stored and the step index advances, so the session is changed, contradicting
"fails with InvalidOption and the session is left unchanged". -/
theorem invalid_option_accepted_cex :
    ¬ ("999-zzz" ∈ optionValues "car" "mileage") ∧
    (on_callback_flt carState "mileage" "999-zzz").state.filters =
      [("mileage_min", .str "999"), ("mileage_max", .str "zzz")] ∧
    (on_callback_flt carState "mileage" "999-zzz").state.flowIdx = 1 := by
  decide

/-- C2 amended.  The `flt:` handler performs no option validation: an encoded
value not among the step's declared option values is accepted like any other —
it is stored through the range/enum mapping rule and the step index advances;
no InvalidOption failure exists. -/
theorem answer_no_option_validation (st : BuilderState) (step value : String)
    (hinv : value ∉ optionValues st.category step) :
    (on_callback_flt st step value).state =
      { category := st.category, city := st.city, district := st.district,
        filters := store_filter_value st.category st.filters step value,
        flow := st.flow, flowIdx := st.flowIdx + 1 } := by
  by_cases h : st.flowIdx + 1 < st.flow.length <;>
    simp [on_callback_flt, FltResult.state, h]

/-- Witness for the amended C2 at the concrete invalid answer. -/
theorem answer_no_option_validation_witness :
    ("999-zzz" ∉ optionValues "car" "mileage") ∧
    (on_callback_flt carState "mileage" "999-zzz").state =
      { category := carState.category, city := carState.city, district := carState.district,
        filters := store_filter_value carState.category carState.filters "mileage" "999-zzz",
        flow := carState.flow, flowIdx := carState.flowIdx + 1 } :=
  ⟨by decide, answer_no_option_validation carState "mileage" "999-zzz" (by decide)⟩

/-- C3 counterexample: with the session expecting step `"mileage"` (flow index
0), answering step `"price"` is accepted — the price bounds are stored and the
index advances — contradicting "fails with StepOutOfOrder and does not modify
the accumulated criteria or advance the step index". -/
theorem step_out_of_order_accepted_cex :
    carState.flow.get? carState.flowIdx = some "mileage" ∧
    "price" ≠ "mileage" ∧
    (on_callback_flt carState "price" "0-300000000").state.filters =
      [("price_min", .int 0), ("price_max", .int 300000000)] ∧
    (on_callback_flt carState "price" "0-300000000").state.flowIdx = 1 := by
  decide

/-- C3 amended.  The `flt:` handler performs no step-order validation: a step
identifier different from the currently expected step is accepted — its value
is stored through that step's mapping rule and the step index advances; no
StepOutOfOrder failure exists. -/
theorem answer_no_step_order_validation (st : BuilderState) (step value e : String)
    (hcur : st.flow.get? st.flowIdx = some e)
    (hne : step ≠ e) :
    (on_callback_flt st step value).state =
      { category := st.category, city := st.city, district := st.district,
        filters := store_filter_value st.category st.filters step value,
        flow := st.flow, flowIdx := st.flowIdx + 1 } := by
  by_cases h : st.flowIdx + 1 < st.flow.length <;>
    simp [on_callback_flt, FltResult.state, h]

/-- Witness for the amended C3 at the concrete out-of-order answer. -/
theorem answer_no_step_order_validation_witness :
    carState.flow.get? carState.flowIdx = some "mileage" ∧
    ("price" : String) ≠ "mileage" ∧
    (on_callback_flt carState "price" "0-300000000").state =
      { category := carState.category, city := carState.city, district := carState.district,
        filters := store_filter_value carState.category carState.filters "price" "0-300000000",
        flow := carState.flow, flowIdx := carState.flowIdx + 1 } :=
  ⟨by decide, by decide,
    answer_no_step_order_validation carState "price" "0-300000000" "mileage" (by decide) (by decide)⟩

end DivarBot
